import Mathlib

set_option maxRecDepth 200000

/-!
Verification of the stsmon transport-stream monitor core: a shallow
embedding of the per-packet validation loop (`monitor_stream` in
src/monitor.c), the PSI section assembler and table machinery (the
biTStream helpers the monitor is built on, modelled from their upstream
definitions), the PAT/SDT/PMT table engines (src/pat.c, the PMT handler)
and the service registry (src/services.c), together with theorems about
the behaviour claimed by the specification.

Bytes are modelled as natural numbers; every read goes through `byte`,
which truncates to `uint8_t` range exactly as C memory does.  Out-of-range
reads (which in the C are reads of freshly allocated or out-of-bounds
memory, undefined or irrelevant to any claim) are modelled as 0.
-/

namespace Stsmon

/-- Read byte `i` of buffer `l` as a `uint8_t` (missing bytes read as 0). -/
def byte (l : List Nat) (i : Nat) : Nat := l.getD i 0 % 256

/-! ### TS packet accessors (biTStream mpeg/ts.h, modelled from upstream) -/

/-- TS packet size in bytes. -/
def TS_SIZE : Nat := 188

/-- Size of the PID table in src/pid.h: `#define TS_MAX_PID 8192`. -/
def TS_MAX_PID : Nat := 8192

/-- Function `ts_validate`: sync byte must be 0x47. -/
def ts_validate (p : List Nat) : Bool := byte p 0 == 0x47

/-- Function `ts_get_pid`: 13-bit PID from bytes 1 and 2. -/
def ts_get_pid (p : List Nat) : Nat := ((byte p 1 &&& 0x1f) <<< 8) ||| byte p 2

/-- Function `ts_get_cc`: 4-bit continuity counter from byte 3. -/
def ts_get_cc (p : List Nat) : Nat := byte p 3 &&& 0xf

/-- Function `ts_get_transporterror`: transport_error_indicator flag (bit 7 of byte 1). -/
def ts_get_transporterror (p : List Nat) : Bool := byte p 1 &&& 0x80 != 0

/-- Function `ts_get_unitstart`: payload_unit_start_indicator flag (bit 6 of byte 1). -/
def ts_get_unitstart (p : List Nat) : Bool := byte p 1 &&& 0x40 != 0

/-- Function `ts_has_payload`: adaptation_field_control payload bit. -/
def ts_has_payload (p : List Nat) : Bool := byte p 3 &&& 0x10 != 0

/-- Function `ts_has_adaptation`: adaptation_field_control adaptation bit. -/
def ts_has_adaptation (p : List Nat) : Bool := byte p 3 &&& 0x20 != 0

/-- Function `ts_get_adaptation`: adaptation field length (byte 4). -/
def ts_get_adaptation (p : List Nat) : Nat := byte p 4

/-- Function `ts_check_discontinuity(i_cc, i_last_cc)`: `(i_last_cc + 17 - i_cc) % 16`
is nonzero exactly when `i_cc` is not the mod-16 successor of `i_last_cc`.
There is no duplicate-packet exemption in this helper, and `monitor_stream`
calls only this helper. -/
def ts_check_discontinuity (cc last : Nat) : Bool := (last + 17 - cc) % 16 != 0

/-- Byte offset of the packet payload (`ts_payload`): past the 4-byte
header, plus the adaptation field when present; `TS_SIZE` when there is no
payload. -/
def ts_payload_off (p : List Nat) : Nat :=
  if !(ts_has_payload p) then TS_SIZE
  else if !(ts_has_adaptation p) then 4
  else 4 + 1 + ts_get_adaptation p

/-- Byte offset used for the first reassembly feed (`ts_section`): skips
the pointer_field byte when payload_unit_start_indicator is set. -/
def ts_section_off (p : List Nat) : Nat :=
  if !(ts_get_unitstart p) then ts_payload_off p
  else ts_payload_off p + 1

/-- Byte offset of the section designated by the pointer_field
(`ts_next_section`); `TS_SIZE` when there is no unit start. -/
def ts_next_section_off (p : List Nat) : Nat :=
  if !(ts_get_unitstart p) then TS_SIZE
  else
    let off := ts_payload_off p
    if TS_SIZE ≤ off then TS_SIZE
    else off + byte p off + 1

/-- The payload slice starting at offset `off`; its length is
`TS_SIZE - off` as in the `payload_length` computation of `monitor_stream`
(out-of-packet offsets, unreachable for well-formed packets, yield the
empty payload). -/
def payload_from (p : List Nat) (off : Nat) : List Nat :=
  (p.drop off).take (TS_SIZE - off)

/-! ### PSI section accessors (biTStream mpeg/psi.h, modelled from upstream) -/

def psi_get_tableid (s : List Nat) : Nat := byte s 0

def psi_get_syntax_bit (s : List Nat) : Bool := byte s 1 &&& 0x80 != 0

def psi_get_length (s : List Nat) : Nat := ((byte s 1 &&& 0xf) <<< 8) ||| byte s 2

def psi_get_tableidext (s : List Nat) : Nat := (byte s 3 <<< 8) ||| byte s 4

def psi_get_version (s : List Nat) : Nat := (byte s 5 >>> 1) &&& 0x1f

def psi_get_section (s : List Nat) : Nat := byte s 6

def psi_get_lastsection (s : List Nat) : Nat := byte s 7

/-- Function `psi_validate`: a syntax section must declare at least
`PSI_HEADER_SIZE_SYNTAX1 - PSI_HEADER_SIZE + PSI_CRC_SIZE = 9` length bytes. -/
def psi_validate (s : List Nat) : Bool :=
  !(psi_get_syntax_bit s && decide (psi_get_length s < 9))

/-! ### CRC32 (MPEG-2) as used by `psi_check_crc` -/

/-- One entry of the CRC-32/MPEG-2 table (polynomial 0x04c11db7, no
reflection), computed bitwise. -/
def crc32_entry (b : Nat) : Nat :=
  (List.range 8).foldl
    (fun c _ =>
      if c &&& 0x80000000 != 0 then ((c <<< 1) ^^^ 0x04c11db7) &&& 0xffffffff
      else (c <<< 1) &&& 0xffffffff)
    ((b &&& 0xff) <<< 24)

/-- CRC register after processing the first `size` bytes of `s`,
starting from 0xffffffff. -/
def psi_crc (s : List Nat) (size : Nat) : Nat :=
  (List.range size).foldl
    (fun crc i => ((crc <<< 8) &&& 0xffffffff) ^^^ crc32_entry ((crc >>> 24) ^^^ byte s i))
    0xffffffff

/-- Function `psi_check_crc`: the four bytes following the section body must equal
the CRC of the body. -/
def psi_check_crc (s : List Nat) : Bool :=
  let size := psi_get_length s + 3 - 4
  let c := psi_crc s size
  byte s size == (c >>> 24) &&
  byte s (size + 1) == ((c >>> 16) &&& 0xff) &&
  byte s (size + 2) == ((c >>> 8) &&& 0xff) &&
  byte s (size + 3) == (c &&& 0xff)

/-- Append the correct CRC-32 to a section body (the effect of
`psi_set_crc`); used to build concrete test sections. -/
def psi_with_crc (base : List Nat) : List Nat :=
  let c := psi_crc base base.length
  base ++ [c >>> 24, (c >>> 16) &&& 0xff, (c >>> 8) &&& 0xff, c &&& 0xff]

/-! ### PSI table snapshots (biTStream `psi_table_*`, modelled from upstream)

A table snapshot is an array of up to 256 optional section buffers
(`PSI_TABLE_DECLARE`); a `none` entry is a NULL section pointer. -/

abbrev PsiTable := Nat → Option (List Nat)

/-- Function `psi_table_init` / a freshly declared table: all section slots NULL. -/
def psi_table_empty : PsiTable := fun _ => none

/-- Function `psi_table_validate`: slot 0 is non-NULL. -/
def psi_table_validate (t : PsiTable) : Bool := (t 0).isSome

/-- Function `psi_table_get_lastsection`: last_section_number of the section in
slot 0 (the C dereferences slot 0 unconditionally). -/
def psi_table_get_lastsection (t : PsiTable) : Nat :=
  psi_get_lastsection ((t 0).getD [])

/-- Replace one slot of a table. -/
def psi_table_set (t : PsiTable) (i : Nat) (s : Option (List Nat)) : PsiTable :=
  fun j => if j = i then s else t j

/-- Function `psi_table_section`: store the section in its slot, then report whether
slots `0..last_section` now hold a coherent (same last-section, version and
table-id-extension) complete table; on completion the spurious slots above
`last_section` are freed. -/
def psi_table_section (t : PsiTable) (s : List Nat) : PsiTable × Bool :=
  let i := psi_get_section s
  let last := psi_get_lastsection s
  let v := psi_get_version s
  let ext := psi_get_tableidext s
  let t1 := psi_table_set t i (some s)
  let ok := (List.range (last + 1)).all fun j =>
    match t1 j with
    | none => false
    | some p =>
        psi_get_lastsection p == last && psi_get_version p == v &&
        psi_get_tableidext p == ext
  if ok then (fun j => if j ≤ last then t1 j else none, true) else (t1, false)

/-- Function `psi_table_compare`: same last-section, and each section
`0..last_section` has the same declared length and the same
`length + 3` leading bytes. -/
def psi_table_compare (t1 t2 : PsiTable) : Bool :=
  let last := psi_table_get_lastsection t1
  psi_table_get_lastsection t2 == last &&
  (List.range (last + 1)).all fun j =>
    let s1 := (t1 j).getD []
    let s2 := (t2 j).getD []
    psi_get_length s1 == psi_get_length s2 &&
    s1.take (psi_get_length s1 + 3) == s2.take (psi_get_length s1 + 3)

/-- Shared shape of `pat_table_validate` / `sdt_table_validate`: every
section `0..last_section` passes the per-section check. -/
def table_sections_ok (t : PsiTable) (check : List Nat → Bool) : Bool :=
  (List.range (psi_table_get_lastsection t + 1)).all fun i => check ((t i).getD [])

/-! ### Section reassembly (biTStream `psi_assemble_payload`, modelled
from upstream)

The per-PID reassembly state is `Option (List Nat)`: `none` is a NULL
buffer (`psi_assemble_reset` state), `some b` is an allocated buffer whose
first `psi_buffer_used = b.length` bytes are `b`. -/

/-- Copy payload bytes into the buffer and extract a completed section if
the declared length is satisfied.  Returns (new buffer state, extracted
section if any, remaining payload). -/
def psi_assemble_step (b payload : List Nat) :
    Option (List Nat) × Option (List Nat) × List Nat :=
  let remaining := 4096 - b.length
  let copy := min payload.length remaining
  let b1 := b ++ payload.take copy
  if 3 ≤ b1.length then
    let secsize := psi_get_length b1 + 3
    if 4096 < secsize then (none, none, [])
    else if secsize ≤ b1.length then
      let copy2 := copy - (b1.length - secsize)
      (some [], some (b1.take secsize), payload.drop copy2)
    else (some b1, none, payload.drop copy)
  else (some b1, none, payload.drop copy)

/-- Function `psi_assemble_payload`: with a NULL buffer a leading 0xff byte means
padding to the end of the TS packet (payload consumed, nothing stored). -/
def psi_assemble_payload (buf : Option (List Nat)) (payload : List Nat) :
    Option (List Nat) × Option (List Nat) × List Nat :=
  match buf with
  | none => if byte payload 0 == 0xff then (none, none, []) else psi_assemble_step [] payload
  | some b => psi_assemble_step b payload

/-! ### Per-PID state (src/pid.h `ts_pid_t`)

`psi_buffer` subsumes the C `psi_buffer`/`psi_buffer_used` pair as
described above. -/

structure TsPid where
  last_cc : Nat
  packets : Nat
  is_psi : Bool
  is_data : Bool
  psi_buffer : Option (List Nat)
deriving DecidableEq

abbrev PidTable := Nat → TsPid

/-- Update the entry of one PID in place. -/
def pid_update (pt : PidTable) (pid : Nat) (f : TsPid → TsPid) : PidTable :=
  fun p => if p = pid then f (pt p) else pt p

/-! ### Service registry (src/services.c)

The singly linked `service_list` is a Lean list with the head as most
recently created entry. -/

structure ServiceEntry where
  service_id : Nat
  pmt_pid : Nat
  name : Option (List Nat)
  scrambled : Bool
  pmt_version : Nat
deriving DecidableEq

/-- A freshly created entry: `memset 0`, then the id and the
`pmt_version = 0xff` "unknown" sentinel are filled in
(`_service_get_or_create`). -/
def service_default (sid : Nat) : ServiceEntry :=
  { service_id := sid, pmt_pid := 0, name := none, scrambled := false, pmt_version := 0xff }

/-- Function `_service_get`: service id 0 returns the list head (a quirk of the C
code); otherwise the first entry with a matching id. -/
def service_get (l : List ServiceEntry) (sid : Nat) : Option ServiceEntry :=
  if sid = 0 then l.head? else l.find? fun se => se.service_id == sid

/-- Apply `f` to the first entry with the given id. -/
def service_update_first : List ServiceEntry → Nat → (ServiceEntry → ServiceEntry) →
    List ServiceEntry
  | [], _, _ => []
  | se :: rest, sid, f =>
      if se.service_id = sid then f se :: rest else se :: service_update_first rest sid f

/-- The common shape of all `service_set_*` operations: mutate the entry
returned by `_service_get_or_create` (which pushes a new entry at the list
head when the id is absent). -/
def service_modify (l : List ServiceEntry) (sid : Nat) (f : ServiceEntry → ServiceEntry) :
    List ServiceEntry :=
  if sid = 0 then
    match l with
    | [] => [f (service_default 0)]
    | se :: rest => f se :: rest
  else if l.any (fun se => se.service_id == sid) then service_update_first l sid f
  else f (service_default sid) :: l

/-- Function `service_update`: replace the name when one is supplied, and overwrite
`pmt_pid` and `scrambled` unconditionally. -/
def service_update (l : List ServiceEntry) (sid : Nat) (name : Option (List Nat))
    (pmt_pid : Nat) (scrambled : Bool) : List ServiceEntry :=
  service_modify l sid fun se =>
    { se with
      name := match name with | some n => some n | none => se.name
      pmt_pid := pmt_pid
      scrambled := scrambled }

def service_set_pmt_pid (l : List ServiceEntry) (sid pid : Nat) : List ServiceEntry :=
  service_modify l sid fun se => { se with pmt_pid := pid }

def service_get_pmt_pid (l : List ServiceEntry) (sid : Nat) : Nat :=
  match service_get l sid with
  | none => 0
  | some se => se.pmt_pid

def service_set_pmt_version (l : List ServiceEntry) (sid v : Nat) : List ServiceEntry :=
  service_modify l sid fun se => { se with pmt_version := v }

def service_get_pmt_version (l : List ServiceEntry) (sid : Nat) : Nat :=
  match service_get l sid with
  | none => 0xff
  | some se => se.pmt_version

def service_scrambled (l : List ServiceEntry) (sid : Nat) : Bool :=
  match service_get l sid with
  | none => false
  | some se => se.scrambled

def service_count (l : List ServiceEntry) : Nat := l.length

/-! ### Engine state

The process-wide mutable state of the monitor: the five statistics
counters, the PID table, the service registry, and the current/next
snapshots of the PAT and SDT engines. -/

structure MonitorState where
  sync_errors : Nat
  cc_errors : Nat
  tei_errors : Nat
  packets_all : Nat
  packets_data : Nat
  pid_table : PidTable
  services : List ServiceEntry
  pat_current : PsiTable
  pat_next : PsiTable
  sdt_current : PsiTable
  sdt_next : PsiTable

/-! ### PAT engine (src/pat.c, first part) -/

def PAT_PID : Nat := 0x0
def PAT_TABLE_ID : Nat := 0x00
def PMT_TABLE_ID : Nat := 0x02
def SDT_PID : Nat := 0x11
def SDT_TABLE_ID_ACTUAL : Nat := 0x42
def NIT_PID : Nat := 0x10

/-- Function `pat_validate` (biTStream): syntax section with PAT table id whose
program area is a whole number of 4-byte entries. -/
def pat_validate (s : List Nat) : Bool :=
  psi_get_syntax_bit s && psi_get_tableid s == PAT_TABLE_ID &&
  ((psi_get_length s : Int) + 3 - 4 - 8) % 4 == 0

/-- The `(program_number, pid)` pairs of one PAT section, in order: the C
iterates `pat_get_program(section, j)` until NULL, reading
`patn_get_program`/`patn_get_pid` of each 4-byte entry starting at
offset 8 while the entry fits inside `length + 3 - 4`. -/
def pat_programs_go (s : List Nat) (size : Nat) : Nat → Nat → List (Nat × Nat)
  | _, 0 => []
  | off, fuel + 1 =>
      if size < off + 4 then []
      else ((byte s off <<< 8) ||| byte s (off + 1),
            ((byte s (off + 2) &&& 0x1f) <<< 8) ||| byte s (off + 3)) ::
           pat_programs_go s size (off + 4) fuel

def pat_section_programs (s : List Nat) : List (Nat × Nat) :=
  pat_programs_go s (psi_get_length s + 3 - 4) 8 1024

/-- All programs of the table sections `0..last`, in the order the
`handle_pat` loops visit them. -/
def pat_table_programs (t : PsiTable) (last : Nat) : List (Nat × Nat) :=
  ((List.range (last + 1)).map fun i => pat_section_programs ((t i).getD [])).flatten

/-- Function `pat_table_find_program` followed by `patn_get_pid`, guarded by the
`psi_table_validate(old_sections)` check of `handle_pat`: the PID of the
first program with this service id in the old table, if any. -/
def pat_find_pid (old : PsiTable) (sid : Nat) : Option Nat :=
  if psi_table_validate old then
    ((pat_table_programs old (psi_table_get_lastsection old)).find? fun pr =>
      pr.1 == sid).map Prod.snd
  else none

/-- Function `pat_table_validate` (biTStream): every section has a correct CRC. -/
def pat_table_validate (t : PsiTable) : Bool := table_sections_ok t psi_check_crc

/-- The body of the per-program loop of `handle_pat`: service id 0 is the NIT
pointer (log only); a program absent from the old table marks its PID
PSI-bearing and records it in the registry; a program whose PID changed
marks the new PID PSI-bearing, demotes the old PID and resets its
reassembly buffer. -/
def process_pat_program (old : PsiTable) (st : MonitorState) (pr : Nat × Nat) :
    MonitorState :=
  if pr.1 = 0 then st
  else
    match pat_find_pid old pr.1 with
    | none =>
        { st with
          pid_table := pid_update st.pid_table pr.2 fun e => { e with is_psi := true }
          services := service_set_pmt_pid st.services pr.1 pr.2 }
    | some old_pid =>
        if old_pid ≠ pr.2 then
          { st with
            pid_table :=
              pid_update
                (pid_update
                  (pid_update st.pid_table pr.2 fun e => { e with is_psi := true })
                  old_pid fun e => { e with is_psi := false })
                old_pid fun e => { e with psi_buffer := none }
            services := service_set_pmt_pid st.services pr.1 pr.2 }
        else st

/-- Function `handle_pat`: identical-table shortcut, table validation, or swap-in
followed by the program diff loop against the previous current table. -/
def handle_pat (st : MonitorState) : MonitorState :=
  let last := psi_table_get_lastsection st.pat_next
  if psi_table_validate st.pat_current && psi_table_compare st.pat_current st.pat_next then
    { st with pat_next := psi_table_empty }
  else if !(pat_table_validate st.pat_next) then
    { st with pat_next := psi_table_empty }
  else
    let old := st.pat_current
    let st1 := { st with pat_current := st.pat_next, pat_next := psi_table_empty }
    (pat_table_programs st.pat_next last).foldl (process_pat_program old) st1

/-- Function `handle_pat_section`: reject sections not on the PAT PID or failing
`pat_validate`; otherwise fold into the next snapshot and run
`handle_pat` when the table became complete. -/
def handle_pat_section (pid : Nat) (s : List Nat) (st : MonitorState) : MonitorState :=
  if pid != PAT_PID || !(pat_validate s) then st
  else
    let r := psi_table_section st.pat_next s
    let st1 := { st with pat_next := r.1 }
    if r.2 then handle_pat st1 else st1

/-! ### Descriptor lists (biTStream descs.h, modelled from upstream) -/

def desc_get_tag (d : List Nat) : Nat := byte d 0
def desc_get_length (d : List Nat) : Nat := byte d 1
def descs_get_length (d : List Nat) : Nat := ((byte d 0 &&& 0xf) <<< 8) ||| byte d 1

/-- The descriptors of a raw descriptor list, in order; mirrors iterating
`descl_get_desc(base, len, n)` until NULL: each entry needs its 2-byte
header inside `len` and advances by `2 + descriptor_length`. -/
def descl_go (d : List Nat) (len : Nat) : Nat → Nat → List (List Nat)
  | _, 0 => []
  | off, fuel + 1 =>
      if len < off + 2 then []
      else (d.drop off) :: descl_go d len (off + 2 + byte d (off + 1)) fuel

def descl_list (d : List Nat) (len : Nat) : List (List Nat) :=
  descl_go d len 0 (len + 1)

/-- Function `descl_validate`: the descriptor walk must land exactly on `len`. -/
def descl_validate_go (d : List Nat) (len : Nat) : Nat → Nat → Bool
  | _, 0 => false
  | off, fuel + 1 =>
      if len < off + 2 then off == len
      else descl_validate_go d len (off + 2 + byte d (off + 1)) fuel

def descl_validate (d : List Nat) (len : Nat) : Bool :=
  descl_validate_go d len 0 (len + 2)

/-- Function `descs_validate`: validate the list following a 2-byte descs header. -/
def descs_validate (d : List Nat) : Bool :=
  descl_validate (d.drop 2) (descs_get_length d)

/-! ### SDT engine (src/pat.c, second part) -/

def sdtn_get_sid (svc : List Nat) : Nat := (byte svc 0 <<< 8) ||| byte svc 1
def sdtn_get_ca (svc : List Nat) : Bool := byte svc 3 &&& 0x10 != 0
def sdtn_get_desclength (svc : List Nat) : Nat := ((byte svc 3 &&& 0xf) <<< 8) ||| byte svc 4

/-- Service entries of one SDT section (slices of the section from each
service offset), mirroring `sdt_get_service(section, j)` until NULL:
entries start at offset 11 (`SDT_HEADER_SIZE`) and advance by
`5 + descriptors_length` while they fit inside `length + 3 - 4`. -/
def sdt_services_go (s : List Nat) (size : Nat) : Nat → Nat → List (List Nat)
  | _, 0 => []
  | off, fuel + 1 =>
      if size ≤ off then []
      else (s.drop off) ::
        (if size < off + 5 then []
         else sdt_services_go s size (off + 5 + sdtn_get_desclength (s.drop off)) fuel)

def sdt_section_services (s : List Nat) : List (List Nat) :=
  let size := psi_get_length s + 3 - 4
  if size < 11 then [] else sdt_services_go s size 11 (size + 1)

/-- Function `sdt_validate` (biTStream): syntax section with an SDT table id, at
least a full SDT header, and a valid descriptor loop for every service. -/
def sdt_validate (s : List Nat) : Bool :=
  psi_get_syntax_bit s &&
  (psi_get_tableid s == SDT_TABLE_ID_ACTUAL || psi_get_tableid s == 0x46) &&
  decide (11 ≤ psi_get_length s + 3 - 4) &&
  (sdt_section_services s).all fun svc => descs_validate (svc.drop 3)

/-- Function `sdt_table_validate`: per-section CRC and structure checks. -/
def sdt_table_validate (t : PsiTable) : Bool :=
  table_sections_ok t fun s => psi_check_crc s && sdt_validate s

/-- Modelled from the spec: the external DVB text-decode interface
(`dvb_string_decode` in src/dvb.c delegates to iconv / Windows API, out
of the engine scope per spec section 1); per the spec it always
succeeds, falling back to raw-byte passthrough, so the decoded display
string is modelled as the raw name bytes. -/
def dvb_string_decode (b : List Nat) : List Nat := b

/-- The service-name bytes of a 0x48 service descriptor:
`desc48_get_service` (provider-name length at byte 3, service-name length
right after the provider name). -/
def desc48_service_name (d : List Nat) : List Nat :=
  let plen := byte d 3
  let slen := byte d (4 + plen)
  (d.drop (5 + plen)).take slen

/-- The body of the per-service loop of `handle_sdt`: for every descriptor
tagged 0x48 in the descriptor loop of the service, `service_update` with the
decoded name, PMT PID 0 and the CA flag. -/
def process_sdt_service (svcs : List ServiceEntry) (svc : List Nat) :
    List ServiceEntry :=
  let sid := sdtn_get_sid svc
  let scrambled := sdtn_get_ca svc
  (descl_list (svc.drop 5) (sdtn_get_desclength svc)).foldl
    (fun acc d =>
      if desc_get_tag d == 0x48 then
        service_update acc sid (some (dvb_string_decode (desc48_service_name d))) 0 scrambled
      else acc)
    svcs

/-- Function `handle_sdt`: identical-table shortcut, table validation, or swap-in
followed by the service/descriptor loop updating the registry. -/
def handle_sdt (st : MonitorState) : MonitorState :=
  let last := psi_table_get_lastsection st.sdt_next
  if psi_table_validate st.sdt_current && psi_table_compare st.sdt_current st.sdt_next then
    { st with sdt_next := psi_table_empty }
  else if !(sdt_table_validate st.sdt_next) then
    { st with sdt_next := psi_table_empty }
  else
    let newT := st.sdt_next
    let st1 := { st with sdt_current := newT, sdt_next := psi_table_empty }
    { st1 with
      services :=
        (((List.range (last + 1)).map fun i =>
            sdt_section_services ((newT i).getD [])).flatten).foldl
          process_sdt_service st1.services }

/-- Function `handle_sdt_section`: reject sections not on the SDT PID or failing
`sdt_validate`; otherwise fold into the next snapshot and run
`handle_sdt` when the table became complete. -/
def handle_sdt_section (pid : Nat) (s : List Nat) (st : MonitorState) : MonitorState :=
  if pid != SDT_PID || !(sdt_validate s) then st
  else
    let r := psi_table_section st.sdt_next s
    let st1 := { st with sdt_next := r.1 }
    if r.2 then handle_sdt st1 else st1

/-! ### PMT engine (the `handle_pmt` translation unit) -/

def pmtn_get_streamtype (es : List Nat) : Nat := byte es 0
def pmtn_get_pid (es : List Nat) : Nat := ((byte es 1 &&& 0x1f) <<< 8) ||| byte es 2
def pmtn_get_desclength (es : List Nat) : Nat := ((byte es 3 &&& 0xf) <<< 8) ||| byte es 4
def pmt_get_desclength (s : List Nat) : Nat := ((byte s 10 &&& 0xf) <<< 8) ||| byte s 11

/-- Elementary-stream entries of a PMT section (slices from each entry
offset onward), mirroring `pmt_get_es(section, i)` until NULL: entries start
after the 12-byte header plus program descriptors and advance by
`5 + es_descriptors_length`. -/
def pmt_es_go (s : List Nat) (size : Nat) : Nat → Nat → List (List Nat)
  | _, 0 => []
  | off, fuel + 1 =>
      if size ≤ off then []
      else (s.drop off) ::
        (if size < off + 5 then []
         else pmt_es_go s size (off + 5 + pmtn_get_desclength (s.drop off)) fuel)

def pmt_es_list (s : List Nat) : List (List Nat) :=
  let size := psi_get_length s + 3 - 4
  let start := 12 + pmt_get_desclength s
  if size < start then [] else pmt_es_go s size start (size + 1)

/-- Function `pmt_validate` (biTStream): single-section syntax table with PMT table
id, a complete header and program-descriptor area, and valid descriptor
loops. -/
def pmt_validate (s : List Nat) : Bool :=
  let size := psi_get_length s + 3 - 4
  psi_get_syntax_bit s && psi_get_section s == 0 && psi_get_lastsection s == 0 &&
  psi_get_tableid s == PMT_TABLE_ID &&
  decide (12 ≤ size) && decide (12 + pmt_get_desclength s ≤ size) &&
  descs_validate (s.drop 10) &&
  (pmt_es_list s).all fun es => descs_validate (es.drop 3)

/-- The data-bearing classification of one elementary stream in
`handle_pmt`: the stream-type allow-list, or a 0x6a/0x7a/0x7f tag among
the entries of the descriptor walk.  NOTE (faithful to the source): the
code passes `pmtn_get_descs(es)` (which still includes the 2-byte
ES_info_length header) together with `desclength + DESCS_HEADER_SIZE` to
the raw-list walker, instead of skipping the header as the SDT handler
does, so the walk starts on the header bytes themselves. -/
def es_has_data (es : List Nat) : Bool :=
  let t := pmtn_get_streamtype es
  (t == 0x01 || t == 0x02 || t == 0x10 || t == 0x1b || t == 0x24 ||
   t == 0x03 || t == 0x04 || t == 0x0f) ||
  (descl_list (es.drop 3) (pmtn_get_desclength es + 2)).any fun d =>
    desc_get_tag d == 0x6a || desc_get_tag d == 0x7a || desc_get_tag d == 0x7f

/-- Function `handle_pmt`: on a version change, record the version in the registry
and set `is_data` of every listed elementary PID; on a version match do
nothing. -/
def handle_pmt (s : List Nat) (st : MonitorState) : MonitorState :=
  if !(pmt_validate s) then st
  else
    let sid := psi_get_tableidext s
    let lastv := service_get_pmt_version st.services sid
    let curv := psi_get_version s
    if curv != lastv then
      { st with
        services := service_set_pmt_version st.services sid curv
        pid_table :=
          (pmt_es_list s).foldl
            (fun pt es =>
              pid_update pt (pmtn_get_pid es) fun e => { e with is_data := es_has_data es })
            st.pid_table }
    else st

/-! ### Section dispatch and the per-packet step (src/monitor.c) -/

/-- Function `handle_section`: validate and dispatch a completed section by table
id. -/
def handle_section (pid : Nat) (s : List Nat) (st : MonitorState) : MonitorState :=
  if !(psi_validate s) then st
  else if psi_get_tableid s == PAT_TABLE_ID then handle_pat_section pid s st
  else if psi_get_tableid s == PMT_TABLE_ID then handle_pmt s st
  else if psi_get_tableid s == SDT_TABLE_ID_ACTUAL then handle_sdt_section pid s st
  else st

/-- One `psi_assemble_payload` call on the buffer of a PID followed by the
validation/dispatch of an extracted section by the monitor.  Returns the new
state, the remaining payload, and `false` when an invalid section forced
a buffer reset and the monitor stops processing the payload of this packet
(`continue`/`break`). -/
def assemble_one (pid : Nat) (payload : List Nat) (st : MonitorState) :
    MonitorState × List Nat × Bool :=
  let pe := st.pid_table pid
  let r := psi_assemble_payload pe.psi_buffer payload
  let st1 := { st with
    pid_table := pid_update st.pid_table pid fun e => { e with psi_buffer := r.1 } }
  match r.2.1 with
  | none => (st1, r.2.2, true)
  | some s =>
      if psi_validate s then (handle_section pid s st1, r.2.2, true)
      else
        ({ st1 with
           pid_table := pid_update st1.pid_table pid fun e => { e with psi_buffer := none } },
         [], false)

/-- The `while (payload_length)` loop of the monitor over the post-pointer
payload; the fuel strictly bounds the iterations (each consumes payload
for well-formed packets; the C loop has no bound of its own). -/
def psi_feed_loop (pid : Nat) : Nat → MonitorState → List Nat → MonitorState
  | 0, st, _ => st
  | fuel + 1, st, payload =>
      if payload.isEmpty then st
      else
        match assemble_one pid payload st with
        | (st1, rest, true) => psi_feed_loop pid fuel st1 rest
        | (st1, _, false) => st1

/-- The PSI branch of the packet loop: one feed from `ts_section`, then
the loop from `ts_next_section`. -/
def process_psi (pid : Nat) (pkt : List Nat) (st : MonitorState) : MonitorState :=
  match assemble_one pid (payload_from pkt (ts_section_off pkt)) st with
  | (st1, _, true) => psi_feed_loop pid 190 st1 (payload_from pkt (ts_next_section_off pkt))
  | (st1, _, false) => st1

/-- The continuity-error test of the packet loop: a previous counter has
been recorded (`last_cc != 0xFF`) and `ts_check_discontinuity` fires. -/
def cc_error_detected (st : MonitorState) (pkt : List Nat) : Bool :=
  let pe := st.pid_table (ts_get_pid pkt)
  (pe.last_cc != 0xff) && ts_check_discontinuity (ts_get_cc pkt) pe.last_cc

/-- One iteration of the packet loop in `monitor_stream`: count the
packet, check sync, skip the (never-matching) `pid == TS_MAX_PID` test,
count it as data, run the continuity and transport-error checks, and for
PSI-bearing PIDs either reset the reassembly buffer on error or feed the
payload to the assembler. -/
def process_packet (st : MonitorState) (pkt : List Nat) : MonitorState :=
  let st0 := { st with packets_all := st.packets_all + 1 }
  if !(ts_validate pkt) then { st0 with sync_errors := st0.sync_errors + 1 }
  else if ts_get_pid pkt == TS_MAX_PID then st0
  else
    let pid := ts_get_pid pkt
    let st1 := { st0 with packets_data := st0.packets_data + 1 }
    let pe := st1.pid_table pid
    let cc := ts_get_cc pkt
    let ccErr := cc_error_detected st pkt
    let st2 := if ccErr then { st1 with cc_errors := st1.cc_errors + 1 } else st1
    let tei := ts_get_transporterror pkt
    let st3 := if tei then { st2 with tei_errors := st2.tei_errors + 1 } else st2
    let st4 := { st3 with
      pid_table := pid_update st3.pid_table pid fun e =>
        { e with last_cc := cc, packets := e.packets + 1 } }
    if pe.is_psi then
      if ccErr || tei then
        { st4 with
          pid_table := pid_update st4.pid_table pid fun e => { e with psi_buffer := none } }
      else process_psi pid pkt st4
    else st4

/-- The initial state built by `monitor_stream`: zero counters, every PID
entry cleared with the `last_cc = 0xFF` sentinel (`is_data` is zero from
C static initialization), the PAT and SDT PIDs marked PSI-bearing, empty
tables and registry. -/
def monitor_init : MonitorState :=
  { sync_errors := 0, cc_errors := 0, tei_errors := 0, packets_all := 0, packets_data := 0
    pid_table := fun p =>
      { last_cc := 0xff, packets := 0
        is_psi := p == PAT_PID || p == SDT_PID
        is_data := false, psi_buffer := none }
    services := []
    pat_current := psi_table_empty, pat_next := psi_table_empty
    sdt_current := psi_table_empty, sdt_next := psi_table_empty }

/-- Process a sequence of 188-byte units, as the receive loop does for
the packets of each datagram in order. -/
def monitor_run (pkts : List (List Nat)) : MonitorState :=
  pkts.foldl process_packet monitor_init

/-! ### Concrete inputs used by the counterexamples and witnesses -/

/-- A single-section table snapshot. -/
def tableOf (s : List Nat) : PsiTable := fun i => if i = 0 then some s else none

/-- An SDT section declaring service 7 with a service descriptor carrying
the name "Test" and the CA flag clear. -/
def sdtSecC1 : List Nat :=
  psi_with_crc ([0x42, 0x80, 26, 0x00, 0x01, 0x01, 0x00, 0x00, 0x00, 0x01, 0xff] ++
    [0x00, 0x07, 0x00, 0x80, 0x09, 0x48, 0x07, 0x01, 0x00, 0x04, 0x54, 0x65, 0x73, 0x74])

/-- A state in which the PAT engine has already recorded PMT PID 0x100
for service 7 and a complete SDT for service 7 is pending. -/
def stC1 : MonitorState :=
  { monitor_init with
    services := [{ service_id := 7, pmt_pid := 0x100, name := none, scrambled := false,
                   pmt_version := 0xff }]
    sdt_next := tableOf sdtSecC1 }

/-- A sync-valid null/padding packet: PID 0x1fff, payload present, cc 0. -/
def nullPkt : List Nat := [0x47, 0x1f, 0xff, 0x10] ++ List.replicate 184 0xff

/-- A sync-valid payload packet on PID 0x64 with cc 5 and no adaptation
field (so no discontinuity_indicator); sent twice it is a protocol-level
duplicate. -/
def dupPkt : List Nat := [0x47, 0x00, 0x64, 0x15] ++ List.replicate 184 0x00

/-- The same packet with cc 6 (the mod-16 successor of 5). -/
def incPkt : List Nat := [0x47, 0x00, 0x64, 0x16] ++ List.replicate 184 0x00

/-- A single-section PAT, version 0, mapping service 7 to PMT PID 0x100. -/
def patSecA : List Nat :=
  psi_with_crc [0x00, 0x80, 0x0d, 0x00, 0x01, 0x01, 0x00, 0x00, 0x00, 0x07, 0xe1, 0x00]

/-- A single-section PAT, version 1, mapping service 7 to PMT PID 0x200. -/
def patSecB : List Nat :=
  psi_with_crc [0x00, 0x80, 0x0d, 0x00, 0x01, 0x03, 0x00, 0x00, 0x00, 0x07, 0xe2, 0x00]

/-- TS packet on the PAT PID (cc 0) carrying `patSecA` behind a zero
pointer_field, padded with 0xff. -/
def patPkt1 : List Nat := [0x47, 0x40, 0x00, 0x10, 0x00] ++ patSecA ++ List.replicate 167 0xff

/-- TS packet on the PAT PID (cc 1) carrying `patSecB`. -/
def patPkt2 : List Nat := [0x47, 0x40, 0x00, 0x11, 0x00] ++ patSecB ++ List.replicate 167 0xff

/-- Payload packet on PID 0x100 with cc 3 (payload bytes are padding). -/
def dataPkt1 : List Nat := [0x47, 0x01, 0x00, 0x13] ++ List.replicate 184 0xff

/-- Payload packet on PID 0x100 with cc 9 (a discontinuity after cc 3). -/
def dataPkt2 : List Nat := [0x47, 0x01, 0x00, 0x19] ++ List.replicate 184 0xff

/-- A valid PMT for service 5, version 0, with a single elementary stream:
PID 0x65, stream type 0x06 (private data), whose ES descriptor loop is
exactly one AC-3 descriptor (tag 0x6a, length 2). -/
def pmtSecC7 : List Nat :=
  psi_with_crc ([0x02, 0x80, 0x16, 0x00, 0x05, 0x01, 0x00, 0x00, 0xe0, 0x00, 0xf0, 0x00] ++
    [0x06, 0xe0, 0x65, 0xf0, 0x04, 0x6a, 0x02, 0x00, 0x00])

/-- A single-section PAT, version 0, with programs (8 → 0x300), (7 → 0x100). -/
def patOldW : List Nat :=
  psi_with_crc [0x00, 0x80, 0x11, 0x00, 0x01, 0x01, 0x00, 0x00,
                0x00, 0x08, 0xe3, 0x00, 0x00, 0x07, 0xe1, 0x00]

/-- The same PAT at version 1 with service 7 moved to PMT PID 0x200. -/
def patNewW : List Nat :=
  psi_with_crc [0x00, 0x80, 0x11, 0x00, 0x01, 0x03, 0x00, 0x00,
                0x00, 0x08, 0xe3, 0x00, 0x00, 0x07, 0xe2, 0x00]

/-- A state with `patOldW` installed and `patNewW` complete and pending. -/
def stC5 : MonitorState :=
  { monitor_init with pat_current := tableOf patOldW, pat_next := tableOf patNewW }

/-- A state whose pending PAT and SDT snapshots are byte-for-byte
identical to the installed ones. -/
def stC6 : MonitorState :=
  { monitor_init with
    pat_current := tableOf patSecA, pat_next := tableOf patSecA
    sdt_current := tableOf sdtSecC1, sdt_next := tableOf sdtSecC1 }

/-- Body of `patSecA` with a zeroed (wrong) CRC. -/
def badPatSec : List Nat :=
  [0x00, 0x80, 0x0d, 0x00, 0x01, 0x01, 0x00, 0x00, 0x00, 0x07, 0xe1, 0x00, 0, 0, 0, 0]

/-- Body of `sdtSecC1` with a zeroed (wrong) CRC. -/
def badSdtSec : List Nat :=
  [0x42, 0x80, 26, 0x00, 0x01, 0x01, 0x00, 0x00, 0x00, 0x01, 0xff] ++
  [0x00, 0x07, 0x00, 0x80, 0x09, 0x48, 0x07, 0x01, 0x00, 0x04, 0x54, 0x65, 0x73, 0x74] ++
  [0, 0, 0, 0]

/-- A state whose pending PAT and SDT snapshots both fail table
validation (broken CRCs) while valid tables are installed. -/
def stC8 : MonitorState :=
  { monitor_init with
    pat_current := tableOf patSecA, pat_next := tableOf badPatSec
    sdt_current := tableOf sdtSecC1, sdt_next := tableOf badSdtSec }

/-- A sync-valid packet on the PAT PID (PSI-bearing from initialization)
with the transport_error_indicator flag set. -/
def teiPkt : List Nat := [0x47, 0x80, 0x00, 0x10] ++ List.replicate 184 0x00

/-- The tuple of the five statistics counters of a state. -/
def stats (st : MonitorState) : Nat × Nat × Nat × Nat × Nat :=
  (st.sync_errors, st.cc_errors, st.tei_errors, st.packets_all, st.packets_data)

end Stsmon

/-! ## Supporting lemmas -/

namespace Stsmon

theorem byte_lt (l : List Nat) (i : Nat) : byte l i < 256 := Nat.mod_lt _ (by norm_num)

theorem lor_lt_8192 {a b : Nat} (ha : a < 8192) (hb : b < 8192) : a ||| b < 8192 := by
  have h : a ||| b < 2 ^ 13 := Nat.bitwise_lt (by norm_num at *; omega) (by norm_num at *; omega)
  norm_num at h; omega

theorem ts_get_pid_lt (p : List Nat) : ts_get_pid p < 8192 := by
  unfold ts_get_pid
  apply lor_lt_8192
  · have h1 : byte p 1 &&& 0x1f ≤ 0x1f := Nat.and_le_right
    have h2 : (byte p 1 &&& 0x1f) <<< 8 = (byte p 1 &&& 0x1f) * 2 ^ 8 := Nat.shiftLeft_eq _ _
    omega
  · have h3 := byte_lt p 2; omega

theorem ts_get_pid_ne_max (p : List Nat) : (ts_get_pid p == TS_MAX_PID) = false := by
  have h := ts_get_pid_lt p
  simp only [TS_MAX_PID, beq_eq_false_iff_ne, ne_eq]
  omega

theorem ts_get_cc_lt (p : List Nat) : ts_get_cc p < 16 :=
  lt_of_le_of_lt Nat.and_le_right (by norm_num)

theorem stats_foldl {α : Type} (f : MonitorState → α → MonitorState)
    (h : ∀ st a, stats (f st a) = stats st) :
    ∀ (l : List α) (st : MonitorState), stats (l.foldl f st) = stats st
  | [], _ => rfl
  | a :: l, st => by rw [List.foldl_cons, stats_foldl f h l, h]

theorem stats_process_pat_program (old : PsiTable) (st : MonitorState) (pr : Nat × Nat) :
    stats (process_pat_program old st pr) = stats st := by
  unfold process_pat_program
  split
  · rfl
  · split
    · rfl
    · split <;> rfl

theorem stats_handle_pat (st : MonitorState) : stats (handle_pat st) = stats st := by
  unfold handle_pat
  split
  · rfl
  · split
    · rfl
    · exact stats_foldl _ (stats_process_pat_program _) _ _

theorem stats_handle_sdt (st : MonitorState) : stats (handle_sdt st) = stats st := by
  unfold handle_sdt
  split
  · rfl
  · split <;> rfl

theorem stats_handle_pmt (s : List Nat) (st : MonitorState) :
    stats (handle_pmt s st) = stats st := by
  unfold handle_pmt
  split
  · rfl
  · dsimp only
    split <;> rfl

theorem stats_handle_pat_section (pid : Nat) (s : List Nat) (st : MonitorState) :
    stats (handle_pat_section pid s st) = stats st := by
  unfold handle_pat_section
  split
  · rfl
  · dsimp only
    split
    · exact stats_handle_pat _
    · rfl

theorem stats_handle_sdt_section (pid : Nat) (s : List Nat) (st : MonitorState) :
    stats (handle_sdt_section pid s st) = stats st := by
  unfold handle_sdt_section
  split
  · rfl
  · dsimp only
    split
    · exact stats_handle_sdt _
    · rfl

theorem stats_handle_section (pid : Nat) (s : List Nat) (st : MonitorState) :
    stats (handle_section pid s st) = stats st := by
  unfold handle_section
  split
  · rfl
  · split
    · exact stats_handle_pat_section _ _ _
    · split
      · exact stats_handle_pmt _ _
      · split
        · exact stats_handle_sdt_section _ _ _
        · rfl

theorem stats_assemble_one (pid : Nat) (payload : List Nat) (st : MonitorState) :
    stats (assemble_one pid payload st).1 = stats st := by
  unfold assemble_one
  dsimp only
  split
  · rfl
  · split
    · exact stats_handle_section _ _ _
    · rfl

theorem stats_psi_feed_loop (pid : Nat) :
    ∀ (fuel : Nat) (st : MonitorState) (payload : List Nat),
      stats (psi_feed_loop pid fuel st payload) = stats st
  | 0, _, _ => rfl
  | fuel + 1, st, payload => by
    unfold psi_feed_loop
    split
    · rfl
    · split
      · next st1 rest h =>
          rw [stats_psi_feed_loop pid fuel st1 rest]
          have h2 := stats_assemble_one pid payload st
          rw [h] at h2
          exact h2
      · next st1 rest h =>
          have h2 := stats_assemble_one pid payload st
          rw [h] at h2
          exact h2

theorem stats_process_psi (pid : Nat) (pkt : List Nat) (st : MonitorState) :
    stats (process_psi pid pkt st) = stats st := by
  unfold process_psi
  split
  · next st1 rest h =>
      rw [stats_psi_feed_loop]
      have h2 := stats_assemble_one pid (payload_from pkt (ts_section_off pkt)) st
      rw [h] at h2
      exact h2
  · next st1 rest h =>
      have h2 := stats_assemble_one pid (payload_from pkt (ts_section_off pkt)) st
      rw [h] at h2
      exact h2

theorem process_psi_counters (pid : Nat) (pkt : List Nat) (st : MonitorState) :
    (process_psi pid pkt st).sync_errors = st.sync_errors ∧
    (process_psi pid pkt st).cc_errors = st.cc_errors ∧
    (process_psi pid pkt st).tei_errors = st.tei_errors ∧
    (process_psi pid pkt st).packets_all = st.packets_all ∧
    (process_psi pid pkt st).packets_data = st.packets_data := by
  have h := stats_process_psi pid pkt st
  simp only [stats, Prod.mk.injEq] at h
  exact h

theorem process_packet_invalid (st : MonitorState) (pkt : List Nat)
    (h : ts_validate pkt = false) :
    process_packet st pkt =
      { st with packets_all := st.packets_all + 1, sync_errors := st.sync_errors + 1 } := by
  unfold process_packet
  simp [h]

theorem process_packet_valid_stats (st : MonitorState) (pkt : List Nat)
    (h : ts_validate pkt = true) :
    stats (process_packet st pkt) =
      (st.sync_errors,
       st.cc_errors + (if cc_error_detected st pkt then 1 else 0),
       st.tei_errors + (if ts_get_transporterror pkt then 1 else 0),
       st.packets_all + 1,
       st.packets_data + 1) := by
  unfold process_packet
  rw [h, ts_get_pid_ne_max]
  by_cases h1 : cc_error_detected st pkt <;>
  by_cases h2 : ts_get_transporterror pkt <;>
  by_cases h3 : (st.pid_table (ts_get_pid pkt)).is_psi <;>
    simp [h1, h2, h3, process_psi_counters, stats]

theorem monitor_invariant_step (st : MonitorState) (pkt : List Nat)
    (hI : st.packets_data + st.sync_errors = st.packets_all) :
    (process_packet st pkt).packets_data + (process_packet st pkt).sync_errors =
      (process_packet st pkt).packets_all := by
  by_cases h : ts_validate pkt
  · have hs := process_packet_valid_stats st pkt h
    simp only [stats, Prod.mk.injEq] at hs
    omega
  · rw [process_packet_invalid st pkt (by simpa using h)]
    dsimp only
    omega

theorem monitor_run_invariant :
    ∀ (pkts : List (List Nat)) (st : MonitorState),
      st.packets_data + st.sync_errors = st.packets_all →
      (pkts.foldl process_packet st).packets_data + (pkts.foldl process_packet st).sync_errors =
        (pkts.foldl process_packet st).packets_all
  | [], _, h => h
  | pkt :: pkts, st, h =>
      monitor_run_invariant pkts (process_packet st pkt) (monitor_invariant_step st pkt h)

theorem last_cc_pid_update_psi (pt : PidTable) (pid : Nat) (b : Bool) (p : Nat) :
    ((pid_update pt pid fun e => { e with is_psi := b }) p).last_cc = (pt p).last_cc := by
  unfold pid_update
  split <;> rfl

theorem last_cc_pid_update_buf (pt : PidTable) (pid : Nat) (p : Nat) :
    ((pid_update pt pid fun e => { e with psi_buffer := none }) p).last_cc =
      (pt p).last_cc := by
  unfold pid_update
  split <;> rfl

theorem last_cc_process_pat_program (old : PsiTable) (st : MonitorState) (pr : Nat × Nat)
    (p : Nat) :
    ((process_pat_program old st pr).pid_table p).last_cc = (st.pid_table p).last_cc := by
  unfold process_pat_program
  split
  · rfl
  · split
    · exact last_cc_pid_update_psi _ _ _ p
    · split
      · dsimp only
        rw [last_cc_pid_update_buf, last_cc_pid_update_psi, last_cc_pid_update_psi]
      · rfl

theorem last_cc_fold (old : PsiTable) :
    ∀ (l : List (Nat × Nat)) (st : MonitorState) (p : Nat),
      ((l.foldl (process_pat_program old) st).pid_table p).last_cc =
        (st.pid_table p).last_cc
  | [], _, _ => rfl
  | pr :: l, st, p => by
      rw [List.foldl_cons, last_cc_fold old l _ p, last_cc_process_pat_program]

theorem last_cc_handle_pat (st : MonitorState) (p : Nat) :
    ((handle_pat st).pid_table p).last_cc = (st.pid_table p).last_cc := by
  unfold handle_pat
  split
  · rfl
  · split
    · rfl
    · exact last_cc_fold _ _ _ p

theorem psi_table_compare_self (t : PsiTable) : psi_table_compare t t = true := by
  unfold psi_table_compare
  simp [List.all_eq_true]

theorem service_get_pmt_pid_set :
    ∀ (l : List ServiceEntry) (s B : Nat), s ≠ 0 →
      service_get_pmt_pid (service_set_pmt_pid l s B) s = B := by
  intro l s B hs
  unfold service_set_pmt_pid service_modify
  rw [if_neg hs]
  by_cases hany : l.any (fun se => se.service_id == s) = true
  · rw [if_pos hany]
    unfold service_get_pmt_pid service_get
    rw [if_neg hs]
    induction l with
    | nil => simp at hany
    | cons hd tl ih =>
        unfold service_update_first
        by_cases hh : hd.service_id = s
        · rw [if_pos hh]
          rw [List.find?_cons_of_pos _ (by simp [hh])]
        · rw [if_neg hh]
          rw [List.find?_cons_of_neg _ (by simp [hh])]
          apply ih
          simpa [List.any_cons, hh] using hany
  · rw [if_neg hany]
    unfold service_get_pmt_pid service_get
    rw [if_neg hs]
    rw [List.find?_cons_of_pos _ (by simp [service_default])]

theorem find_of_count_le_one :
    ∀ (l : List (Nat × Nat)) (pr : Nat × Nat), pr ∈ l →
      (l.map Prod.fst).count pr.1 ≤ 1 →
      l.find? (fun q => q.1 == pr.1) = some pr := by
  intro l
  induction l with
  | nil => intro pr h; simp at h
  | cons hd tl ih =>
      intro pr hmem hcount
      by_cases hh : hd.1 = pr.1
      · have hpr : pr = hd := by
          rcases List.mem_cons.mp hmem with h1 | h1
          · exact h1
          · exfalso
            have h2 : pr.1 ∈ tl.map Prod.fst := List.mem_map_of_mem Prod.fst h1
            have h3 : 0 < (tl.map Prod.fst).count pr.1 := List.count_pos_iff.mpr h2
            rw [List.map_cons, List.count_cons] at hcount
            simp [hh] at hcount
            omega
        rw [List.find?_cons_of_pos _ (by simp [hh]), hpr]
      · have hmem2 : pr ∈ tl := by
          rcases List.mem_cons.mp hmem with h1 | h1
          · subst h1; exact absurd rfl hh
          · exact h1
        rw [List.find?_cons_of_neg _ (by simp [hh])]
        apply ih pr hmem2
        rw [List.map_cons, List.count_cons] at hcount
        omega

theorem fold_unchanged (old : PsiTable) :
    ∀ (l : List (Nat × Nat)) (st : MonitorState),
      (∀ pr ∈ l, pr.1 ≠ 0 → pat_find_pid old pr.1 = some pr.2) →
      l.foldl (process_pat_program old) st = st
  | [], _, _ => rfl
  | pr :: l, st, h => by
      rw [List.foldl_cons]
      have hstep : process_pat_program old st pr = st := by
        unfold process_pat_program
        by_cases h0 : pr.1 = 0
        · rw [if_pos h0]
        · rw [if_neg h0, h pr (List.mem_cons_self _ _) h0]
          simp
      rw [hstep]
      exact fold_unchanged old l st fun pr hm h0 => h pr (List.mem_cons_of_mem _ hm) h0

end Stsmon

/-! ## Claim theorems -/

namespace Stsmon

/-- Claim C1 (code bug): processing a valid SDT is claimed to leave every
PMT PID untouched, but `handle_sdt` calls `service_update` with a PMT PID
argument of 0, and `service_update` stores that argument unconditionally.
Starting from a registry in which service 7 has PMT PID 0x100, installing
a valid SDT that names service 7 resets the recorded PMT PID to 0 while
updating the name and scrambled flag. -/
theorem C1_sdt_clobbers_pmt_pid :
    service_get_pmt_pid stC1.services 7 = 0x100 ∧
    sdt_table_validate stC1.sdt_next = true ∧
    service_get_pmt_pid (handle_sdt stC1).services 7 = 0 ∧
    (service_get (handle_sdt stC1).services 7).map (fun se => se.name) =
      some (some [0x54, 0x65, 0x73, 0x74]) ∧
    service_scrambled (handle_sdt stC1).services 7 = false := by decide

/-- Claim C2 (code bug): the reserved null/padding PID is 0x1fff = 8191,
but the skip test in `monitor_stream` compares the 13-bit PID against
`TS_MAX_PID` = 8192, which no PID can ever equal, so a sync-valid packet
on PID 0x1fff is not skipped: it is counted as a data packet and its PID
entry is updated, contrary to the claim. -/
theorem C2_null_pid_not_skipped :
    ts_get_pid nullPkt = 0x1fff ∧
    TS_MAX_PID = 8192 ∧
    (∀ p : List Nat, ts_get_pid p < TS_MAX_PID) ∧
    (monitor_run [nullPkt]).packets_all = 1 ∧
    (monitor_run [nullPkt]).sync_errors = 0 ∧
    (monitor_run [nullPkt]).packets_data = 1 ∧
    ((monitor_run [nullPkt]).pid_table 0x1fff).packets = 1 :=
  ⟨by decide, rfl, ts_get_pid_lt, by decide, by decide, by decide, by decide⟩

/-- Claim C3, counterexample: a duplicate packet (same PID, same counter 5,
payload present, no adaptation field and hence no discontinuity_indicator,
no transport error) raises a continuity error: the claimed duplicate
exemption does not exist in the per-packet step. -/
theorem C3_duplicate_raises_error :
    ts_validate dupPkt = true ∧ ts_has_payload dupPkt = true ∧
    ts_has_adaptation dupPkt = false ∧ ts_get_transporterror dupPkt = false ∧
    ts_get_cc dupPkt = 5 ∧
    (monitor_run [dupPkt]).cc_errors = 0 ∧
    ((monitor_run [dupPkt]).pid_table (ts_get_pid dupPkt)).last_cc = 5 ∧
    (monitor_run [dupPkt, dupPkt]).cc_errors = 1 := by decide

/-- Claim C3 (amended): with a previously recorded counter `c` on the
packet PID, the per-packet step raises a continuity error if and only if
the packet counter is not `(c + 1) mod 16` — with no duplicate exemption:
a repeated counter also counts as an error. -/
theorem C3_cc_successor_iff (st : MonitorState) (pkt : List Nat) (c : Nat)
    (hv : ts_validate pkt = true)
    (hc : (st.pid_table (ts_get_pid pkt)).last_cc = c) (hlt : c < 16) :
    (process_packet st pkt).cc_errors =
      st.cc_errors + (if ts_get_cc pkt = (c + 1) % 16 then 0 else 1) := by
  have hs := process_packet_valid_stats st pkt hv
  simp only [stats, Prod.mk.injEq] at hs
  have hcc : cc_error_detected st pkt = !(ts_get_cc pkt == (c + 1) % 16) := by
    unfold cc_error_detected ts_check_discontinuity
    dsimp only
    rw [hc]
    have h2 := ts_get_cc_lt pkt
    rw [Bool.eq_iff_iff]
    simp only [Bool.and_eq_true, bne_iff_ne, ne_eq, Bool.not_eq_true', beq_eq_false_iff_ne]
    omega
  rw [hs.2.1, hcc]
  by_cases he : ts_get_cc pkt = (c + 1) % 16 <;> simp [he]

/-- Witness for C3_cc_successor_iff at a concrete state and packet. -/
theorem C3_cc_successor_iff_witness :
    ts_validate incPkt = true ∧
    ((monitor_run [dupPkt]).pid_table (ts_get_pid incPkt)).last_cc = 5 ∧ 5 < 16 ∧
    (process_packet (monitor_run [dupPkt]) incPkt).cc_errors =
      (monitor_run [dupPkt]).cc_errors +
        (if ts_get_cc incPkt = (5 + 1) % 16 then 0 else 1) :=
  ⟨by decide, by decide, by decide,
   C3_cc_successor_iff (monitor_run [dupPkt]) incPkt 5 (by decide) (by decide) (by decide)⟩

/-- Claim C4, counterexample: after a PAT update revokes the PSI role of
PID 0x100 (its `is_psi` flag is cleared and its reassembly buffer reset),
the first packet observed on that PID still raises a continuity error,
because the role reset does not clear the recorded continuity counter. -/
theorem C4_role_reset_counterexample :
    ((monitor_run [patPkt1, dataPkt1]).pid_table 0x100).is_psi = true ∧
    ((monitor_run [patPkt1, dataPkt1, patPkt2]).pid_table 0x100).is_psi = false ∧
    ((monitor_run [patPkt1, dataPkt1, patPkt2]).pid_table 0x100).psi_buffer = none ∧
    ts_validate dataPkt2 = true ∧ ts_get_pid dataPkt2 = 0x100 ∧
    ts_get_transporterror dataPkt2 = false ∧
    (monitor_run [patPkt1, dataPkt1, patPkt2]).cc_errors = 0 ∧
    (monitor_run [patPkt1, dataPkt1, patPkt2, dataPkt2]).cc_errors = 1 := by decide

/-- Claim C4 (amended): every PID entry starts at the `last_cc = 0xFF`
sentinel and a packet arriving on a PID whose entry still holds the
sentinel never raises a continuity error; however, a PSI role reset by the
PAT engine leaves the recorded continuity counter of every PID unchanged,
so only the reassembly state — not the continuity state — is cleared. -/
theorem C4_first_packet_and_role_reset :
    (∀ pid : Nat, (monitor_init.pid_table pid).last_cc = 0xff) ∧
    (∀ (st : MonitorState) (pkt : List Nat),
      (st.pid_table (ts_get_pid pkt)).last_cc = 0xff →
      (process_packet st pkt).cc_errors = st.cc_errors) ∧
    (∀ (st : MonitorState) (p : Nat),
      ((handle_pat st).pid_table p).last_cc = (st.pid_table p).last_cc) := by
  refine ⟨fun _ => rfl, ?_, last_cc_handle_pat⟩
  intro st pkt hc
  by_cases hv : ts_validate pkt
  · have hs := process_packet_valid_stats st pkt hv
    simp only [stats, Prod.mk.injEq] at hs
    have hcc : cc_error_detected st pkt = false := by
      unfold cc_error_detected
      dsimp only
      rw [hc]
      simp
    rw [hs.2.1, hcc]
    simp
  · rw [process_packet_invalid st pkt (by simpa using hv)]

/-- Witness for C4_first_packet_and_role_reset at concrete inputs. -/
theorem C4_first_packet_and_role_reset_witness :
    (monitor_init.pid_table 5).last_cc = 0xff ∧
    (monitor_init.pid_table (ts_get_pid dupPkt)).last_cc = 0xff ∧
    (process_packet monitor_init dupPkt).cc_errors = monitor_init.cc_errors ∧
    ((handle_pat stC5).pid_table 0x100).last_cc = (stC5.pid_table 0x100).last_cc :=
  ⟨C4_first_packet_and_role_reset.1 5,
   by decide,
   C4_first_packet_and_role_reset.2.1 monitor_init dupPkt (by decide),
   C4_first_packet_and_role_reset.2.2 stC5 0x100⟩

end Stsmon

namespace Stsmon

/-- Claim C5: an installed PAT update in which exactly one service id `s`
changes its PMT PID from `A` to `B` (all other program entries identical,
nonzero service ids pairwise distinct, `A ≠ B`) leaves the PID-table entry
for `A` with `is_psi = false` and an empty reassembly buffer, sets
`is_psi = true` for `B`, and records `B` as the PMT PID of `s` in the
service registry. -/
theorem C5_pid_migration (st : MonitorState) (s A B : Nat) (L1 L2 : List (Nat × Nat))
    (hcur : psi_table_validate st.pat_current = true)
    (hcmp : psi_table_compare st.pat_current st.pat_next = false)
    (hval : pat_table_validate st.pat_next = true)
    (hnew : pat_table_programs st.pat_next (psi_table_get_lastsection st.pat_next) =
      L1 ++ (s, B) :: L2)
    (hold : pat_table_programs st.pat_current (psi_table_get_lastsection st.pat_current) =
      L1 ++ (s, A) :: L2)
    (hs : s ≠ 0) (hAB : A ≠ B)
    (hnodup : (((L1 ++ (s, B) :: L2).map Prod.fst).filter (fun x => x != 0)).Nodup) :
    ((handle_pat st).pid_table A).is_psi = false ∧
    ((handle_pat st).pid_table A).psi_buffer = none ∧
    ((handle_pat st).pid_table B).is_psi = true ∧
    service_get_pmt_pid (handle_pat st).services s = B := by
  have hcount : ∀ t, t ≠ 0 → ((L1 ++ (s, A) :: L2).map Prod.fst).count t ≤ 1 := by
    intro t ht
    have hmapeq : (L1 ++ (s, A) :: L2).map Prod.fst = (L1 ++ (s, B) :: L2).map Prod.fst := by
      simp
    rw [hmapeq]
    have h1 := List.nodup_iff_count_le_one.mp hnodup t
    rw [List.count_filter (by simp [ht])] at h1
    exact h1
  have hfind : ∀ pr ∈ L1 ++ (s, A) :: L2, pr.1 ≠ 0 →
      pat_find_pid st.pat_current pr.1 = some pr.2 := by
    intro pr hm h0
    unfold pat_find_pid
    rw [hcur]
    rw [if_pos rfl]
    rw [hold, find_of_count_le_one _ pr hm (hcount pr.1 h0)]
    rfl
  have hfindL1 : ∀ pr ∈ L1, pr.1 ≠ 0 → pat_find_pid st.pat_current pr.1 = some pr.2 :=
    fun pr hm h0 => hfind pr (List.mem_append_left _ hm) h0
  have hfindL2 : ∀ pr ∈ L2, pr.1 ≠ 0 → pat_find_pid st.pat_current pr.1 = some pr.2 :=
    fun pr hm h0 => hfind pr (List.mem_append_right _ (List.mem_cons_of_mem _ hm)) h0
  have hfindS : pat_find_pid st.pat_current s = some A :=
    hfind (s, A) (List.mem_append_right _ (List.mem_cons_self _ _)) hs
  unfold handle_pat
  rw [hcmp, Bool.and_false]
  rw [if_neg (by simp)]
  rw [hval]
  rw [if_neg (by simp)]
  rw [hnew, List.foldl_append]
  rw [fold_unchanged st.pat_current L1 _ hfindL1]
  rw [List.foldl_cons]
  have hstep :
      process_pat_program st.pat_current
        { st with pat_current := st.pat_next, pat_next := psi_table_empty } (s, B) =
      { st with
        pat_current := st.pat_next, pat_next := psi_table_empty
        pid_table :=
          pid_update
            (pid_update
              (pid_update st.pid_table B fun e => { e with is_psi := true })
              A fun e => { e with is_psi := false })
            A fun e => { e with psi_buffer := none }
        services := service_set_pmt_pid st.services s B } := by
    unfold process_pat_program
    rw [if_neg hs, hfindS]
    simp [hAB]
  rw [hstep]
  rw [fold_unchanged st.pat_current L2 _ hfindL2]
  have hBA : B ≠ A := fun h => hAB h.symm
  refine ⟨?_, ?_, ?_, service_get_pmt_pid_set st.services s B hs⟩
  · simp [pid_update, hAB, hBA]
  · simp [pid_update, hAB, hBA]
  · simp [pid_update, hAB, hBA]

/-- Witness for C5_pid_migration: installing `patNewW` over `patOldW`
migrates service 7 from PMT PID 0x100 to 0x200. -/
theorem C5_pid_migration_witness :
    ((handle_pat stC5).pid_table 0x100).is_psi = false ∧
    ((handle_pat stC5).pid_table 0x100).psi_buffer = none ∧
    ((handle_pat stC5).pid_table 0x200).is_psi = true ∧
    service_get_pmt_pid (handle_pat stC5).services 7 = 0x200 :=
  C5_pid_migration stC5 7 0x100 0x200 [(8, 0x300)] []
    (by decide) (by decide) (by decide) (by decide) (by decide)
    (by decide) (by decide) (by decide)

/-- Claim C6: for both table kinds, when the complete next snapshot is
identical to the installed current snapshot, the engine discards the next
snapshot and leaves the rest of the state — current snapshot, PID table,
service registry and the other table engine — exactly unchanged. -/
theorem C6_identical_table_shortcut (st : MonitorState) :
    (psi_table_validate st.pat_current = true → st.pat_next = st.pat_current →
      handle_pat st = { st with pat_next := psi_table_empty }) ∧
    (psi_table_validate st.sdt_current = true → st.sdt_next = st.sdt_current →
      handle_sdt st = { st with sdt_next := psi_table_empty }) := by
  constructor
  · intro hval hnext
    unfold handle_pat
    rw [hnext, hval, psi_table_compare_self]
    simp
  · intro hval hnext
    unfold handle_sdt
    rw [hnext, hval, psi_table_compare_self]
    simp

/-- Witness for C6_identical_table_shortcut at a state holding identical
current and next PAT and SDT snapshots. -/
theorem C6_identical_table_shortcut_witness :
    handle_pat stC6 = { stC6 with pat_next := psi_table_empty } ∧
    handle_sdt stC6 = { stC6 with sdt_next := psi_table_empty } :=
  ⟨(C6_identical_table_shortcut stC6).1 (by decide) rfl,
   (C6_identical_table_shortcut stC6).2 (by decide) rfl⟩

/-- Claim C7 (code bug): `handle_pmt` is claimed to classify elementary
streams by stream type and by elementary descriptor tags, but it hands the
descriptor area including its 2-byte length header to the raw descriptor
walker, so the only walked entry is the header itself and real ES
descriptors are never inspected: a valid PMT whose single ES has stream
type 0x06 and exactly one AC-3 descriptor (tag 0x6a) is classified not
data-bearing even though its version is duly recorded. -/
theorem C7_pmt_descriptor_walk_bug :
    pmt_validate pmtSecC7 = true ∧
    pmtn_get_streamtype ((pmt_es_list pmtSecC7).getD 0 []) = 0x06 ∧
    pmtn_get_pid ((pmt_es_list pmtSecC7).getD 0 []) = 0x65 ∧
    desc_get_tag (((pmt_es_list pmtSecC7).getD 0 []).drop 5) = 0x6a ∧
    service_get_pmt_version (handle_pmt pmtSecC7 monitor_init).services 5 = 0 ∧
    ((handle_pmt pmtSecC7 monitor_init).pid_table 0x65).is_data = false := by decide

/-- Claim C8: for both table kinds, a complete next snapshot that fails
table validation is discarded whole: the handler returns the state with
only the next snapshot reset, so the current snapshot, the PID table and
the service registry are untouched. -/
theorem C8_invalid_table_atomicity (st : MonitorState) :
    (pat_table_validate st.pat_next = false →
      handle_pat st = { st with pat_next := psi_table_empty }) ∧
    (sdt_table_validate st.sdt_next = false →
      handle_sdt st = { st with sdt_next := psi_table_empty }) := by
  constructor
  · intro h
    unfold handle_pat
    rw [h]
    split
    · rfl
    · simp
  · intro h
    unfold handle_sdt
    rw [h]
    split
    · rfl
    · simp

/-- Witness for C8_invalid_table_atomicity at a state whose pending PAT
and SDT snapshots both have broken CRCs. -/
theorem C8_invalid_table_atomicity_witness :
    handle_pat stC8 = { stC8 with pat_next := psi_table_empty } ∧
    handle_sdt stC8 = { stC8 with sdt_next := psi_table_empty } :=
  ⟨(C8_invalid_table_atomicity stC8).1 (by decide),
   (C8_invalid_table_atomicity stC8).2 (by decide)⟩

/-- Claim C9: a sync-valid packet on a PSI-bearing PID on which a
continuity error or the transport-error flag is detected resets the PID
entry to an empty reassembly buffer (while updating its counter and packet
count) and feeds nothing to the reassembler: both table engines and the
service registry are left exactly unchanged by the packet. -/
theorem C9_error_resets_reassembly (st : MonitorState) (pkt : List Nat)
    (hv : ts_validate pkt = true)
    (hpsi : (st.pid_table (ts_get_pid pkt)).is_psi = true)
    (herr : (cc_error_detected st pkt || ts_get_transporterror pkt) = true) :
    (process_packet st pkt).pid_table (ts_get_pid pkt) =
      { st.pid_table (ts_get_pid pkt) with
        last_cc := ts_get_cc pkt
        packets := (st.pid_table (ts_get_pid pkt)).packets + 1
        psi_buffer := none } ∧
    (process_packet st pkt).pat_current = st.pat_current ∧
    (process_packet st pkt).pat_next = st.pat_next ∧
    (process_packet st pkt).sdt_current = st.sdt_current ∧
    (process_packet st pkt).sdt_next = st.sdt_next ∧
    (process_packet st pkt).services = st.services := by
  unfold process_packet
  rw [hv, ts_get_pid_ne_max]
  dsimp only
  by_cases h1 : cc_error_detected st pkt <;> by_cases h2 : ts_get_transporterror pkt <;>
    simp [h1, h2, hpsi, pid_update] at herr ⊢

/-- Witness for C9_error_resets_reassembly: a transport-error packet on
the PAT PID, which is PSI-bearing from initialization. -/
theorem C9_error_resets_reassembly_witness :
    (process_packet monitor_init teiPkt).pid_table (ts_get_pid teiPkt) =
      { monitor_init.pid_table (ts_get_pid teiPkt) with
        last_cc := ts_get_cc teiPkt
        packets := (monitor_init.pid_table (ts_get_pid teiPkt)).packets + 1
        psi_buffer := none } ∧
    (process_packet monitor_init teiPkt).pat_current = monitor_init.pat_current ∧
    (process_packet monitor_init teiPkt).pat_next = monitor_init.pat_next ∧
    (process_packet monitor_init teiPkt).sdt_current = monitor_init.sdt_current ∧
    (process_packet monitor_init teiPkt).sdt_next = monitor_init.sdt_next ∧
    (process_packet monitor_init teiPkt).services = monitor_init.services :=
  C9_error_resets_reassembly monitor_init teiPkt (by decide) (by decide) (by decide)

/-- Claim C10: the data-packet counter counts every sync-valid unit (the
PID-table data classification is never consulted, and the null-PID skip is
unreachable), so after processing any input
`packets_data = packets_all - sync_errors` holds. -/
theorem C10_data_counter_invariant :
    (∀ pkts : List (List Nat),
      (monitor_run pkts).packets_data =
        (monitor_run pkts).packets_all - (monitor_run pkts).sync_errors ∧
      (monitor_run pkts).sync_errors ≤ (monitor_run pkts).packets_all) ∧
    (∀ (st : MonitorState) (pkt : List Nat), ts_validate pkt = true →
      (process_packet st pkt).packets_data = st.packets_data + 1) := by
  constructor
  · intro pkts
    have h := monitor_run_invariant pkts monitor_init rfl
    unfold monitor_run
    omega
  · intro st pkt h
    have hs := process_packet_valid_stats st pkt h
    simp only [stats, Prod.mk.injEq] at hs
    exact hs.2.2.2.2

/-- Witness for C10_data_counter_invariant on a concrete two-packet run. -/
theorem C10_data_counter_invariant_witness :
    (monitor_run [nullPkt, dupPkt]).packets_data =
      (monitor_run [nullPkt, dupPkt]).packets_all -
        (monitor_run [nullPkt, dupPkt]).sync_errors ∧
    ts_validate dupPkt = true ∧
    (process_packet monitor_init dupPkt).packets_data = monitor_init.packets_data + 1 :=
  ⟨(C10_data_counter_invariant.1 [nullPkt, dupPkt]).1, by decide,
   C10_data_counter_invariant.2 monitor_init dupPkt (by decide)⟩

end Stsmon
